import Mathlib

/-!
Verification of the encoding/binary classification engine of the
`directory-serialization` repository (`src/detector/detector.go`).

Byte buffers are embedded as `List Byte` with `Byte := Fin 256`.  Each Go
function of `detector.go` is translated into a Lean definition of the same
name; loops become structural recursions carrying the loop's local state.

The Japanese sub-engine (`guess_ja.go`) is not part of the given sources;
`detector.go` only calls it through `newJapaneseCode().guessJP(ptr)` and maps
its four conclusive answers to encoding names.  It is therefore modelled from
the specification (see `guessJP` below), and every theorem that does not
depend on a concrete Japanese answer is stated for an arbitrary engine
`guess : List Byte → JapaneseCode` via `EncodingDetectorG`.
-/

namespace Detector

/-- A byte, as manipulated by the Go `[]byte` buffers. -/
abbrev Byte := Fin 256

/-- Embeds `EncodingChoiceSource` of `detector.go`: the source from which the
encoding was determined. -/
inductive EncodingChoiceSource where
  | DefaultEncoding
  | AutoDetectedEncoding
  | BOM
  | EncodingFromXMLHeader
  | EncodingFromMetaTag
  | UserChosenEncoding
  deriving DecidableEq, Repr

/-- Embeds `AutoDetectScript` of `detector.go`: the language group used for the
heuristic analysis. -/
inductive AutoDetectScript where
  | None
  | Arabic
  | Baltic
  | CentralEuropean
  | ChineseSimplified
  | ChineseTraditional
  | Cyrillic
  | Greek
  | Hebrew
  | Japanese
  | Korean
  | Turkish
  | WesternEuropean
  | Unicode
  deriving DecidableEq, Repr

/-- Embeds `DetectorResult` of `detector.go`. -/
structure DetectorResult where
  Encoding : String
  Source : EncodingChoiceSource
  Script : AutoDetectScript
  IsBinary : Bool
  deriving DecidableEq, Repr

/-- Embeds `maxBuffer` of `detector.go`: maximal buffer size analysed by the
heuristics. -/
def maxBuffer : Nat := 16 * 1024

/-- Embeds `bytes.HasPrefix(data, pre)` from the Go standard library, specialised to
the two fixed prefixes used by `checkBOM`. -/
def startsWith : List Byte → List Byte → Bool
  | [], _ => true
  | _ :: _, [] => false
  | p :: ps, d :: ds => decide (p = d) && startsWith ps ds

/-- Embeds `checkBOM` of `detector.go` (lines 179–191). -/
def checkBOM (data : List Byte) : Option String :=
  if startsWith [0xEF, 0xBB, 0xBF] data then some "UTF-8-BOM"
  else if startsWith [0xFE, 0xFF] data then some "UTF-16BE"
  else if startsWith [0xFF, 0xFE] data then some "UTF-16LE"
  else none

/-- Embeds `isBinary` of `detector.go` (lines 60–69): look for a null byte among the
first 8000 bytes (`bytes.Contains(data[:checkLen], []byte{0})`). -/
def isBinary (data : List Byte) : Bool :=
  (data.take 8000).any fun b => decide (b = 0)

/-- One pass of `unicode/utf8.Valid` from the Go standard library, used by
`errorsIfUtf8`: RFC-3629 UTF-8 validity (no overlong forms, no surrogates,
no code points beyond U+10FFFF), following Go's first-byte accept table.
The `fuel` argument only bounds the recursion structurally so that the
function reduces in the kernel; each step consumes at least one byte, so
`fuel = length` (as supplied by `utf8Valid`) never runs out. -/
def utf8ValidAux : Nat → List Byte → Bool
  | _, [] => true
  | 0, _ :: _ => false
  | fuel + 1, b0 :: rest =>
    if b0 ≤ 0x7f then utf8ValidAux fuel rest
    else if 0xc2 ≤ b0 ∧ b0 ≤ 0xdf then
      match rest with
      | b1 :: r => decide (0x80 ≤ b1 ∧ b1 ≤ 0xbf) && utf8ValidAux fuel r
      | [] => false
    else if 0xe0 ≤ b0 ∧ b0 ≤ 0xef then
      match rest with
      | b1 :: b2 :: r =>
        (if b0 = 0xe0 then decide (0xa0 ≤ b1 ∧ b1 ≤ 0xbf)
         else if b0 = 0xed then decide (0x80 ≤ b1 ∧ b1 ≤ 0x9f)
         else decide (0x80 ≤ b1 ∧ b1 ≤ 0xbf)) &&
        decide (0x80 ≤ b2 ∧ b2 ≤ 0xbf) && utf8ValidAux fuel r
      | _ => false
    else if 0xf0 ≤ b0 ∧ b0 ≤ 0xf4 then
      match rest with
      | b1 :: b2 :: b3 :: r =>
        (if b0 = 0xf0 then decide (0x90 ≤ b1 ∧ b1 ≤ 0xbf)
         else if b0 = 0xf4 then decide (0x80 ≤ b1 ∧ b1 ≤ 0x8f)
         else decide (0x80 ≤ b1 ∧ b1 ≤ 0xbf)) &&
        decide (0x80 ≤ b2 ∧ b2 ≤ 0xbf) &&
        decide (0x80 ≤ b3 ∧ b3 ≤ 0xbf) && utf8ValidAux fuel r
      | _ => false
    else false

/-- Embeds `unicode/utf8.Valid`. -/
def utf8Valid (l : List Byte) : Bool :=
  utf8ValidAux l.length l

/-- Embeds `errorsIfUtf8` of `detector.go` (lines 71–75). -/
def errorsIfUtf8 (data : List Byte) : Bool :=
  !utf8Valid data

/-- The loop of `automaticDetectionForWesternEuropean` (lines 225–235):
`i` ranges over `0 .. size-2`, inspecting `ptr[i]` and `ptr[i+1]`; here
`p0 = ptr[i]` is threaded through and the list argument holds the bytes
from `ptr[i+1]` on, so each step sees one adjacent pair.  `nonANSICount`
is the loop's accumulator; the trailing check is the loop exit. -/
def weScan : Byte → Nat → List Byte → String
  | _, nonANSICount, [] => if 0 < nonANSICount then "iso-8859-15" else ""
  | p0, nonANSICount, p1 :: rest =>
    if 0x79 < p0 then
      if 0xc1 < p0 ∧ p0 < 0xf0 ∧ 0x7f < p1 ∧ p1 < 0xc0 then "UTF-8"
      else if 0x78 ≤ p0 ∧ p0 ≤ 0x9F then "cp1252"
      else weScan p1 (nonANSICount + 1) rest
    else weScan p1 nonANSICount rest

/-- Embeds `automaticDetectionForWesternEuropean` of `detector.go` (lines 219–240). -/
def automaticDetectionForWesternEuropean (ptr : List Byte) : String :=
  if ptr.length = 0 then ""
  else
    match ptr with
    | [] => ""
    | p0 :: rest => weScan p0 0 rest

/-- The local counters of `automaticDetectionForCyrillic` (lines 244–246). -/
structure CyrState where
  utf8Mark : Nat
  koiScore : Nat
  cp1251Score : Nat
  koiSt : Nat
  cp1251St : Nat
  cp1251SmallRange : Nat
  koiSmallRange : Nat
  ibm866SmallRange : Nat
  deriving DecidableEq, Repr

/-- All counters start at zero. -/
def cyrInit : CyrState := ⟨0, 0, 0, 0, 0, 0, 0, 0⟩

/-- One iteration of the Cyrillic loop body (lines 256–277): `p = ptr[i]`,
`prev = ptr[i-1]`. -/
def cyrStep (s : CyrState) (prev p : Byte) : CyrState :=
  if 0xdf < p then
    let s1 := { s with cp1251SmallRange := s.cp1251SmallRange + 1 }
    if p = 0xee then { s1 with cp1251Score := s1.cp1251Score + 1 }
    else if p = 0xf2 ∧ prev = 0xf1 then { s1 with cp1251St := s1.cp1251St + 1 }
    else s1
  else if 0xbf < p then
    let s1 := { s with koiSmallRange := s.koiSmallRange + 1 }
    let s2 := if p = 0xd0 ∨ p = 0xd1 then { s1 with utf8Mark := s1.utf8Mark + 1 } else s1
    if p = 0xcf then { s2 with koiScore := s2.koiScore + 1 }
    else if p = 0xd4 ∧ prev = 0xd3 then { s2 with koiSt := s2.koiSt + 1 }
    else s2
  else if 0x9f < p ∧ p < 0xb0 then
    { s with ibm866SmallRange := s.ibm866SmallRange + 1 }
  else s

/-- The Cyrillic loop (`for i := 1; i < limit; i++`): it visits the adjacent
pairs `(ptr[i-1], ptr[i])` of the truncated buffer, threading the previous
byte through. -/
def cyrLoop : CyrState → Byte → List Byte → CyrState
  | s, _, [] => s
  | s, prev, p :: rest => cyrLoop (cyrStep s prev p) p rest

/-- Runs the Cyrillic loop over a whole (already truncated) buffer: a buffer
with fewer than two bytes never enters the loop body. -/
def cyrRun : List Byte → CyrState
  | [] => cyrInit
  | p0 :: rest => cyrLoop cyrInit p0 rest

/-- The decision ladder after the Cyrillic loop (lines 280–299). -/
def cyrDecide (s : CyrState) : String :=
  if s.cp1251SmallRange + s.koiSmallRange + s.ibm866SmallRange < 8 then ""
  else if 3 * s.utf8Mark > s.cp1251SmallRange + s.koiSmallRange + s.ibm866SmallRange then "UTF-8"
  else if s.ibm866SmallRange > s.cp1251SmallRange + s.koiSmallRange then "ibm866"
  else
    let scores : Nat × Nat :=
      if s.cp1251St = 0 ∧ s.koiSt > 1 then (s.koiScore + 10, s.cp1251Score)
      else if s.koiSt = 0 ∧ s.cp1251St > 1 then (s.koiScore, s.cp1251Score + 10)
      else (s.koiScore, s.cp1251Score)
    if scores.2 > scores.1 then "cp1251" else "koi8-u"

/-- Embeds `automaticDetectionForCyrillic` of `detector.go` (lines 242–300).  The
source guard `cp1251SmallRange+koiSmallRange < 1000` compares counters that
are still zero at that point, so the 1000-byte cap always applies. -/
def automaticDetectionForCyrillic (ptr : List Byte) : String :=
  let size := ptr.length
  let limit := if size > 1000 then 1000 else size
  cyrDecide (cyrRun (ptr.take limit))

/-- The result enumeration of the Japanese sub-engine, as consumed by
`automaticDetectionForJapanese` (constants `JapaneseCodeJIS`,
`JapaneseCodeEUC`, `JapaneseCodeSJIS`, `JapaneseCodeUTF8`, plus the
inconclusive default the spec calls `Unknown`). -/
inductive JapaneseCode where
  | JIS
  | EUC
  | SJIS
  | UTF8
  | Unknown
  deriving DecidableEq, Repr

/-- Sliding three-byte window over the buffer: `a` and `b` are the two
previously seen bytes (helper for `hasJisKanjiSwitch`). -/
def jisSwitchScan : Byte → Byte → List Byte → Bool
  | _, _, [] => false
  | a, b, c :: rest =>
    (decide (a = 0x1b) && decide (b = 0x24) && (decide (c = 0x42) || decide (c = 0x40))) ||
    jisSwitchScan b c rest

/-- Detects an ISO-2022-JP kanji-mode switch `ESC $ B` or `ESC $ @` anywhere
in the buffer (helper for the spec-modelled `guessJP`). -/
def hasJisKanjiSwitch : List Byte → Bool
  | a :: b :: rest => jisSwitchScan a b rest
  | _ => false

/-- Modelled from the spec: the Japanese sub-engine (`guess_ja.go`, the port
of Kate's `guess_ja`) is not among the given sources; only its caller is.
The spec describes it as a "JIS/EUC-JP/Shift-JIS/UTF-8 discriminator …
returning one of four code enums", any other outcome being inconclusive
(`guessJapanese(bytes) -> {JIS, EUC, SJIS, UTF8, Unknown}`).  JIS
(ISO-2022-JP) is a pure 7-bit encoding signalled by its canonical escape
sequences `ESC $ B` / `ESC $ @`; EUC-JP, Shift-JIS and non-ASCII UTF-8 all
require bytes ≥ 0x80.  The model therefore reports JIS on a kanji-mode
escape and is otherwise inconclusive; in particular a buffer with no escape
sequence and no high-bit byte matches none of the four codes.  How the real
engine discriminates EUC/SJIS/UTF8 on high-bit buffers is not specified, and
no theorem below depends on that case: all universally quantified theorems
take the engine as a parameter. -/
def guessJP (ptr : List Byte) : JapaneseCode :=
  if hasJisKanjiSwitch ptr then JapaneseCode.JIS else JapaneseCode.Unknown

/-- Embeds `automaticDetectionForJapanese` of `detector.go` (lines 302–319),
parameterised by the sub-engine `guess` (the source's `kc.guessJP`). -/
def automaticDetectionForJapaneseG (guess : List Byte → JapaneseCode) (ptr : List Byte) : String :=
  match guess ptr with
  | JapaneseCode.JIS => "jis7"
  | JapaneseCode.EUC => "eucjp"
  | JapaneseCode.SJIS => "sjis"
  | JapaneseCode.UTF8 => "utf8"
  | JapaneseCode.Unknown => ""

/-- Instantiates `automaticDetectionForJapanese` with the spec-modelled engine. -/
def automaticDetectionForJapanese (ptr : List Byte) : String :=
  automaticDetectionForJapaneseG guessJP ptr

/-- Embeds `automaticDetectionForArabic` of `detector.go` (lines 325–332). -/
def automaticDetectionForArabic : List Byte → String
  | [] => "iso-8859-6"
  | p :: rest =>
    if (0x80 ≤ p ∧ p ≤ 0x9F) ∨ p = 0xA1 ∨ p = 0xA2 ∨ p = 0xA3 ∨ (0xA5 ≤ p ∧ p ≤ 0xAB) ∨
       (0xAE ≤ p ∧ p ≤ 0xBA) ∨ p = 0xBC ∨ p = 0xBD ∨ p = 0xBE ∨ p = 0xC0 ∨
       (0xDB ≤ p ∧ p ≤ 0xDF) ∨ 0xF3 ≤ p
    then "cp1256"
    else automaticDetectionForArabic rest

/-- Embeds `automaticDetectionForBaltic` of `detector.go` (lines 334–344). -/
def automaticDetectionForBaltic : List Byte → String
  | [] => "iso-8859-13"
  | p :: rest =>
    if 0x80 ≤ p ∧ p ≤ 0x9E then "cp1257"
    else if p = 0xA1 ∨ p = 0xA5 then "iso-8859-13"
    else automaticDetectionForBaltic rest

/-- The indexed loop of `automaticDetectionForCentralEuropean` (lines
348–368), with its `charset` accumulator.  The source's `i+1 > len(ptr)`
early exits are kept although they can never fire inside a range loop. -/
def ceLoop (ptr : List Byte) (i : Nat) (charset : String) : String :=
  if h : i < ptr.length then
    let p := ptr.get ⟨i, h⟩
    if 0x80 ≤ p ∧ p ≤ 0x9F then
      if p = 0x81 ∨ p = 0x83 ∨ p = 0x90 ∨ p = 0x98 then "ibm852"
      else if i + 1 > ptr.length then "cp1250"
      else ceLoop ptr (i + 1) "cp1250"
    else if p = 0xA5 ∨ p = 0xAE ∨ p = 0xBE ∨ p = 0xC3 ∨ p = 0xD0 ∨ p = 0xE3 ∨ p = 0xF0 then
      if i + 1 > ptr.length then "iso-8859-2"
      else ceLoop ptr (i + 1) (if charset = "" then "iso-8859-2" else charset)
    else ceLoop ptr (i + 1) charset
  else if charset = "" then "iso-8859-3" else charset
termination_by ptr.length - i

/-- Embeds `automaticDetectionForCentralEuropean` of `detector.go` (lines 346–373). -/
def automaticDetectionForCentralEuropean (ptr : List Byte) : String :=
  ceLoop ptr 0 ""

/-- Embeds `automaticDetectionForGreek` of `detector.go` (lines 375–382). -/
def automaticDetectionForGreek : List Byte → String
  | [] => "iso-8859-7"
  | p :: rest =>
    if p = 0x80 ∨ (0x82 ≤ p ∧ p ≤ 0x87) ∨ p = 0x89 ∨ p = 0x8B ∨ (0x91 ≤ p ∧ p ≤ 0x97) ∨
       p = 0x99 ∨ p = 0x9B ∨ p = 0xA4 ∨ p = 0xA5 ∨ p = 0xAE
    then "cp1253"
    else automaticDetectionForGreek rest

/-- Embeds `automaticDetectionForHebrew` of `detector.go` (lines 384–394). -/
def automaticDetectionForHebrew : List Byte → String
  | [] => "iso-8859-8-i"
  | p :: rest =>
    if p = 0x80 ∨ (0x82 ≤ p ∧ p ≤ 0x89) ∨ p = 0x8B ∨ (0x91 ≤ p ∧ p ≤ 0x99) ∨ p = 0x9B ∨
       p = 0xA1 ∨ (0xBF ≤ p ∧ p ≤ 0xC9) ∨ (0xCB ≤ p ∧ p ≤ 0xD8)
    then "cp1255"
    else if p = 0xDF then "iso-8859-8-i"
    else automaticDetectionForHebrew rest

/-- Embeds `automaticDetectionForTurkish` of `detector.go` (lines 396–403). -/
def automaticDetectionForTurkish : List Byte → String
  | [] => "iso-8859-9"
  | p :: rest =>
    if p = 0x80 ∨ (0x82 ≤ p ∧ p ≤ 0x8C) ∨ (0x91 ≤ p ∧ p ≤ 0x9C) ∨ p = 0x9F
    then "cp1254"
    else automaticDetectionForTurkish rest

/-- Embeds `runHeuristics` of `detector.go` (lines 193–215), parameterised by the
Japanese sub-engine.  Script families without an implemented scanner fall
into the default case and yield `""`. -/
def runHeuristicsG (guess : List Byte → JapaneseCode) (sample : List Byte)
    (script : AutoDetectScript) : String :=
  match script with
  | AutoDetectScript.Arabic => automaticDetectionForArabic sample
  | AutoDetectScript.Baltic => automaticDetectionForBaltic sample
  | AutoDetectScript.CentralEuropean => automaticDetectionForCentralEuropean sample
  | AutoDetectScript.Cyrillic => automaticDetectionForCyrillic sample
  | AutoDetectScript.Greek => automaticDetectionForGreek sample
  | AutoDetectScript.Hebrew => automaticDetectionForHebrew sample
  | AutoDetectScript.Japanese => automaticDetectionForJapaneseG guess sample
  | AutoDetectScript.Turkish => automaticDetectionForTurkish sample
  | AutoDetectScript.WesternEuropean => automaticDetectionForWesternEuropean sample
  | _ => ""

/-- The final fallback of `EncodingDetector` (lines 157–164): the pre-set
default `"us-ascii"` stands unless the whole buffer is valid UTF-8. -/
def utf8Fallback (data : List Byte) : DetectorResult :=
  if errorsIfUtf8 data then
    ⟨"us-ascii", EncodingChoiceSource.DefaultEncoding, AutoDetectScript.None, false⟩
  else
    ⟨"UTF-8", EncodingChoiceSource.AutoDetectedEncoding, AutoDetectScript.None, false⟩

/-- Embeds `EncodingDetector` of `detector.go` (lines 79–165), parameterised by the
Japanese sub-engine.  The source builds the result by mutation; the staged
early returns are rendered as a nested conditional (the hint block's two
nested `if`s collapse to one conjunction, which is equivalent since the
guard has no side effects). -/
def EncodingDetectorG (guess : List Byte → JapaneseCode) (data : List Byte)
    (scriptHint : AutoDetectScript) : DetectorResult :=
  if data.length = 0 then
    ⟨"us-ascii", EncodingChoiceSource.DefaultEncoding, AutoDetectScript.None, false⟩
  else
    match checkBOM data with
    | some enc => ⟨enc, EncodingChoiceSource.BOM, AutoDetectScript.None, false⟩
    | none =>
      if isBinary data then
        ⟨"binary", EncodingChoiceSource.DefaultEncoding, AutoDetectScript.None, true⟩
      else
        -- `sample := data[:min(len(data), maxBuffer)]`, inlined below
        if scriptHint ≠ AutoDetectScript.None ∧
            runHeuristicsG guess (data.take maxBuffer) scriptHint ≠ "" then
          ⟨runHeuristicsG guess (data.take maxBuffer) scriptHint,
            EncodingChoiceSource.AutoDetectedEncoding, scriptHint, false⟩
        else if automaticDetectionForWesternEuropean (data.take maxBuffer) ≠ "" then
          ⟨automaticDetectionForWesternEuropean (data.take maxBuffer),
            EncodingChoiceSource.AutoDetectedEncoding, AutoDetectScript.WesternEuropean, false⟩
        else if automaticDetectionForCyrillic (data.take maxBuffer) ≠ "" then
          ⟨automaticDetectionForCyrillic (data.take maxBuffer),
            EncodingChoiceSource.AutoDetectedEncoding, AutoDetectScript.Cyrillic, false⟩
        else if automaticDetectionForJapaneseG guess (data.take maxBuffer) ≠ "" then
          ⟨automaticDetectionForJapaneseG guess (data.take maxBuffer),
            EncodingChoiceSource.AutoDetectedEncoding, AutoDetectScript.Japanese, false⟩
        else
          utf8Fallback data

/-- Instantiates `EncodingDetector` with the spec-modelled Japanese engine. -/
def EncodingDetector (data : List Byte) (scriptHint : AutoDetectScript) : DetectorResult :=
  EncodingDetectorG guessJP data scriptHint

/-- Embeds `IsText` of `detector.go` (lines 170–177). -/
def IsText (data : List Byte) : Bool :=
  if data.length = 0 then true
  else !isBinary data

/-- Number of high-bit bytes (values ≥ 0x80) in a buffer. -/
def highBitCount (l : List Byte) : Nat :=
  l.countP fun b => decide (0x7f < b)

/-- The sum of the three Cyrillic range counters, as compared against 8 by
the decision ladder. -/
def cyrBuckets (s : CyrState) : Nat :=
  s.cp1251SmallRange + s.koiSmallRange + s.ibm866SmallRange

/-- The input class of claim C7: a buffer consisting exclusively of
two-byte UTF-8 sequences for Cyrillic letters, i.e. a lead byte 0xD0 or
0xD1 followed by a continuation byte 0x80–0xBF. -/
def isCyrUtf8Pairs : List Byte → Bool
  | [] => true
  | d :: c :: rest =>
    (decide (d = 0xD0) || decide (d = 0xD1)) && decide (0x80 ≤ c) && decide (c ≤ 0xBF) &&
    isCyrUtf8Pairs rest
  | _ => false

/-- The bytes of the ASCII text "hello world". -/
def helloWorld : List Byte :=
  [0x68, 0x65, 0x6c, 0x6c, 0x6f, 0x20, 0x77, 0x6f, 0x72, 0x6c, 0x64]

/-- Four copies of the two-byte UTF-8 sequence `D0 90` (the Cyrillic capital
letter А): 8 high-bit bytes, valid UTF-8, Cyrillic letters only. -/
def cyrPairsEx : List Byte :=
  [0xD0, 0x90, 0xD0, 0x90, 0xD0, 0x90, 0xD0, 0x90]

/-- The canonical ISO-2022-JP kanji-mode switch `ESC $ B`: pure 7-bit, no
high-bit bytes. -/
def jisEx : List Byte :=
  [0x1B, 0x24, 0x42]

/-- Two buffers agreeing everywhere except at index 0: the `F1 F2` pair at
indices 0–1 of the first is seen by the Cyrillic sentence-marker test. -/
def idx0A : List Byte :=
  [0xF1, 0xF2, 0xF1, 0xF2, 0xF2, 0xF2, 0xF2, 0xF2, 0xF2]

/-- Same as `idx0A` with a plain ASCII byte at index 0. -/
def idx0B : List Byte :=
  [0x41, 0xF2, 0xF1, 0xF2, 0xF2, 0xF2, 0xF2, 0xF2, 0xF2]

/-! ## Helper lemmas -/

theorem checkBOM_ne_empty {data : List Byte} {enc : String}
    (h : checkBOM data = some enc) : enc ≠ "" := by
  unfold checkBOM at h
  split_ifs at h <;> simp_all <;> subst h <;> decide

theorem japanese_encoding_ne {guess : List Byte → JapaneseCode} {l : List Byte} :
    automaticDetectionForJapaneseG guess l ≠ "us-ascii" := by
  unfold automaticDetectionForJapaneseG
  cases guess l <;> decide

/-- Full case analysis of the classifier's result shape: either it is the
non-binary side with a non-empty name, or it is exactly the binary default
result and the buffer really had a null byte in its first 8000 bytes. -/
theorem detector_shape (guess : List Byte → JapaneseCode) (data : List Byte)
    (hint : AutoDetectScript) :
    ((EncodingDetectorG guess data hint).IsBinary = false ∧
      (EncodingDetectorG guess data hint).Encoding ≠ "") ∨
    (EncodingDetectorG guess data hint =
        ⟨"binary", EncodingChoiceSource.DefaultEncoding, AutoDetectScript.None, true⟩ ∧
      isBinary data = true) := by
  unfold EncodingDetectorG
  split
  · left; exact ⟨rfl, by decide⟩
  · split
    · next enc heq => left; exact ⟨rfl, checkBOM_ne_empty heq⟩
    · split
      · next hb => right; exact ⟨rfl, hb⟩
      · split
        · next hg => left; exact ⟨rfl, hg.2⟩
        · split
          · next hw => left; exact ⟨rfl, hw⟩
          · split
            · next hc => left; exact ⟨rfl, hc⟩
            · split
              · next hj => left; exact ⟨rfl, hj⟩
              · left
                unfold utf8Fallback
                split <;> exact ⟨rfl, by decide⟩

/-- Reduction of the classifier to its heuristic stage once the empty, BOM
and binary stages have all passed. -/
theorem detector_stage (guess : List Byte → JapaneseCode) (data : List Byte)
    (hint : AutoDetectScript) (h0 : data.length ≠ 0)
    (hbom : checkBOM data = none) (hbin : isBinary data = false) :
    EncodingDetectorG guess data hint =
      (if hint ≠ AutoDetectScript.None ∧
          runHeuristicsG guess (data.take maxBuffer) hint ≠ "" then
        ⟨runHeuristicsG guess (data.take maxBuffer) hint,
          EncodingChoiceSource.AutoDetectedEncoding, hint, false⟩
      else if automaticDetectionForWesternEuropean (data.take maxBuffer) ≠ "" then
        ⟨automaticDetectionForWesternEuropean (data.take maxBuffer),
          EncodingChoiceSource.AutoDetectedEncoding, AutoDetectScript.WesternEuropean, false⟩
      else if automaticDetectionForCyrillic (data.take maxBuffer) ≠ "" then
        ⟨automaticDetectionForCyrillic (data.take maxBuffer),
          EncodingChoiceSource.AutoDetectedEncoding, AutoDetectScript.Cyrillic, false⟩
      else if automaticDetectionForJapaneseG guess (data.take maxBuffer) ≠ "" then
        ⟨automaticDetectionForJapaneseG guess (data.take maxBuffer),
          EncodingChoiceSource.AutoDetectedEncoding, AutoDetectScript.Japanese, false⟩
      else utf8Fallback data) := by
  unfold EncodingDetectorG
  rw [if_neg h0, hbom, hbin]
  simp

/-- Reduction of the classifier on a buffer whose first 8000 bytes contain a
null byte and which carries no BOM. -/
theorem detector_binary (guess : List Byte → JapaneseCode) (data : List Byte)
    (hint : AutoDetectScript) (h0 : data.length ≠ 0)
    (hbom : checkBOM data = none) (hbin : isBinary data = true) :
    EncodingDetectorG guess data hint =
      ⟨"binary", EncodingChoiceSource.DefaultEncoding, AutoDetectScript.None, true⟩ := by
  unfold EncodingDetectorG
  rw [if_neg h0, hbom, hbin]
  simp

/-! ## Claims -/

/-- C1: a buffer starting with one of the three recognized BOM prefixes
(`EF BB BF`, `FE FF`, `FF FE`) classifies as text with source BOM and the
matching encoding name, for every Japanese engine, script hint and remaining
content; in particular `FE FF` followed by null bytes is still text, the BOM
stage short-circuiting before the binary stage. -/
theorem bom_short_circuits (guess : List Byte → JapaneseCode) (hint : AutoDetectScript)
    (rest : List Byte) :
    EncodingDetectorG guess (0xEF :: 0xBB :: 0xBF :: rest) hint =
      ⟨"UTF-8-BOM", EncodingChoiceSource.BOM, AutoDetectScript.None, false⟩ ∧
    EncodingDetectorG guess (0xFE :: 0xFF :: rest) hint =
      ⟨"UTF-16BE", EncodingChoiceSource.BOM, AutoDetectScript.None, false⟩ ∧
    EncodingDetectorG guess (0xFF :: 0xFE :: rest) hint =
      ⟨"UTF-16LE", EncodingChoiceSource.BOM, AutoDetectScript.None, false⟩ ∧
    EncodingDetector [0xFE, 0xFF, 0x00, 0x00] AutoDetectScript.None =
      ⟨"UTF-16BE", EncodingChoiceSource.BOM, AutoDetectScript.None, false⟩ :=
  ⟨rfl, rfl, rfl, rfl⟩

/-- C2: a non-empty BOM-free buffer with a null byte among its first 8000
bytes classifies as the binary default result; a null byte only beyond the
first 8000 bytes does not set the binary flag. -/
theorem null_byte_means_binary (guess : List Byte → JapaneseCode) (data : List Byte)
    (hint : AutoDetectScript) (hne : data ≠ []) (hbom : checkBOM data = none) :
    ((0 : Byte) ∈ data.take 8000 →
      EncodingDetectorG guess data hint =
        ⟨"binary", EncodingChoiceSource.DefaultEncoding, AutoDetectScript.None, true⟩) ∧
    ((0 : Byte) ∉ data.take 8000 → (EncodingDetectorG guess data hint).IsBinary = false) := by
  have h0 : data.length ≠ 0 := by simpa [List.length_eq_zero] using hne
  constructor
  · intro hmem
    have hbin : isBinary data = true := by
      simp only [isBinary, List.any_eq_true, decide_eq_true_eq]
      exact ⟨0, hmem, rfl⟩
    exact detector_binary guess data hint h0 hbom hbin
  · intro hmem
    have hbin : isBinary data = false := by
      simp only [isBinary, List.any_eq_false, decide_eq_true_eq]
      intro x hx he
      exact hmem (he ▸ hx)
    rcases detector_shape guess data hint with ⟨h1, _⟩ | ⟨_, h2⟩
    · exact h1
    · rw [hbin] at h2
      cases h2

/-- C2 witness: `[0xFE, 0x00]` (null in the first 8000 bytes, no BOM) is the
binary default result; `[0x41]` is not flagged binary. -/
theorem null_byte_means_binary_witness :
    EncodingDetectorG guessJP [0xFE, 0x00] AutoDetectScript.None =
      ⟨"binary", EncodingChoiceSource.DefaultEncoding, AutoDetectScript.None, true⟩ ∧
    (EncodingDetectorG guessJP [0x41] AutoDetectScript.None).IsBinary = false :=
  ⟨(null_byte_means_binary guessJP [0xFE, 0x00] AutoDetectScript.None (by decide)
      (by decide)).1 (by decide),
   (null_byte_means_binary guessJP [0x41] AutoDetectScript.None (by decide)
      (by decide)).2 (by decide)⟩

/-- C3: for every buffer, script hint and Japanese engine, the result is
either the binary flag paired with the name "binary", or the non-binary flag
paired with a non-empty encoding name. -/
theorem result_invariant (guess : List Byte → JapaneseCode) (data : List Byte)
    (hint : AutoDetectScript) :
    ((EncodingDetectorG guess data hint).IsBinary = true ∧
      (EncodingDetectorG guess data hint).Encoding = "binary") ∨
    ((EncodingDetectorG guess data hint).IsBinary = false ∧
      (EncodingDetectorG guess data hint).Encoding ≠ "") := by
  rcases detector_shape guess data hint with ⟨h1, h2⟩ | ⟨h, _⟩
  · right; exact ⟨h1, h2⟩
  · left; rw [h]; exact ⟨rfl, rfl⟩

/-- C4: `IsText` is exactly the null-byte heuristic — true iff the buffer is
empty or its first 8000 bytes contain no null — and it is not the negation
of the full classifier's binary flag: on `FE FF 00` it answers false while
the classifier (BOM stage first) answers non-binary. -/
theorem istext_null_heuristic :
    (∀ data : List Byte, IsText data = true ↔ (data = [] ∨ (0 : Byte) ∉ data.take 8000)) ∧
    IsText [0xFE, 0xFF, 0x00] = false ∧
    (∀ (guess : List Byte → JapaneseCode) (hint : AutoDetectScript),
      (EncodingDetectorG guess [0xFE, 0xFF, 0x00] hint).IsBinary = false) := by
  refine ⟨?_, by decide, fun guess hint => rfl⟩
  intro data
  rcases eq_or_ne data [] with h | h
  · subst h; simp [IsText]
  · have h0 : data.length ≠ 0 := by simpa [List.length_eq_zero] using h
    simp only [IsText, if_neg h0, isBinary, h, false_or, Bool.not_eq_true',
      List.any_eq_false, decide_eq_true_eq]
    exact ⟨fun H hm => H 0 hm rfl, fun H x hx he => H (he ▸ hx)⟩

/-- C9: the empty buffer is text for both entry points, classifying as the
"us-ascii" default before any other stage runs, for every hint and engine. -/
theorem empty_buffer_defined (guess : List Byte → JapaneseCode) (hint : AutoDetectScript) :
    EncodingDetectorG guess [] hint =
      ⟨"us-ascii", EncodingChoiceSource.DefaultEncoding, AutoDetectScript.None, false⟩ ∧
    IsText [] = true :=
  ⟨rfl, rfl⟩

/-- C5: on a non-empty, BOM-free, non-binary buffer, a conclusive non-None
hint wins immediately with source heuristic and script the hint; otherwise
the scanners run in the fixed order Western European, Cyrillic, Japanese,
each winning immediately when conclusive; when all are inconclusive the
UTF-8-validity fallback decides.  Hints without an implemented scanner
(Korean, Chinese, Unicode) are inconclusive, not errors. -/
theorem heuristic_order (guess : List Byte → JapaneseCode) (data : List Byte)
    (hint : AutoDetectScript) (h0 : data.length ≠ 0)
    (hbom : checkBOM data = none) (hbin : isBinary data = false) :
    (hint ≠ AutoDetectScript.None →
      runHeuristicsG guess (data.take maxBuffer) hint ≠ "" →
      EncodingDetectorG guess data hint =
        ⟨runHeuristicsG guess (data.take maxBuffer) hint,
          EncodingChoiceSource.AutoDetectedEncoding, hint, false⟩) ∧
    ((hint = AutoDetectScript.None ∨ runHeuristicsG guess (data.take maxBuffer) hint = "") →
      ((automaticDetectionForWesternEuropean (data.take maxBuffer) ≠ "" →
          EncodingDetectorG guess data hint =
            ⟨automaticDetectionForWesternEuropean (data.take maxBuffer),
              EncodingChoiceSource.AutoDetectedEncoding,
              AutoDetectScript.WesternEuropean, false⟩) ∧
       (automaticDetectionForWesternEuropean (data.take maxBuffer) = "" →
          automaticDetectionForCyrillic (data.take maxBuffer) ≠ "" →
          EncodingDetectorG guess data hint =
            ⟨automaticDetectionForCyrillic (data.take maxBuffer),
              EncodingChoiceSource.AutoDetectedEncoding, AutoDetectScript.Cyrillic, false⟩) ∧
       (automaticDetectionForWesternEuropean (data.take maxBuffer) = "" →
          automaticDetectionForCyrillic (data.take maxBuffer) = "" →
          automaticDetectionForJapaneseG guess (data.take maxBuffer) ≠ "" →
          EncodingDetectorG guess data hint =
            ⟨automaticDetectionForJapaneseG guess (data.take maxBuffer),
              EncodingChoiceSource.AutoDetectedEncoding, AutoDetectScript.Japanese, false⟩) ∧
       (automaticDetectionForWesternEuropean (data.take maxBuffer) = "" →
          automaticDetectionForCyrillic (data.take maxBuffer) = "" →
          automaticDetectionForJapaneseG guess (data.take maxBuffer) = "" →
          EncodingDetectorG guess data hint = utf8Fallback data))) ∧
    (runHeuristicsG guess (data.take maxBuffer) AutoDetectScript.Korean = "" ∧
     runHeuristicsG guess (data.take maxBuffer) AutoDetectScript.ChineseSimplified = "" ∧
     runHeuristicsG guess (data.take maxBuffer) AutoDetectScript.ChineseTraditional = "" ∧
     runHeuristicsG guess (data.take maxBuffer) AutoDetectScript.Unicode = "") := by
  rw [detector_stage guess data hint h0 hbom hbin]
  refine ⟨fun hn hr => if_pos ⟨hn, hr⟩, fun hor => ?_, rfl, rfl, rfl, rfl⟩
  have hg : ¬(hint ≠ AutoDetectScript.None ∧
      runHeuristicsG guess (data.take maxBuffer) hint ≠ "") := by
    rcases hor with h | h
    · exact fun hc => hc.1 h
    · exact fun hc => hc.2 h
  rw [if_neg hg]
  refine ⟨fun hw => if_pos hw, fun hw hc => ?_, fun hw hc hj => ?_, fun hw hc hj => ?_⟩
  · rw [if_neg (fun hne => hne hw), if_pos hc]
  · rw [if_neg (fun hne => hne hw), if_neg (fun hne => hne hc), if_pos hj]
  · rw [if_neg (fun hne => hne hw), if_neg (fun hne => hne hc), if_neg (fun hne => hne hj)]

/-- C5 witness: on the single-byte ASCII buffer `[0x61]` with no hint, all
stages are inconclusive and the fallback decides; the Korean hint is
inconclusive. -/
theorem heuristic_order_witness :
    EncodingDetectorG guessJP [0x61] AutoDetectScript.None = utf8Fallback [0x61] ∧
    runHeuristicsG guessJP ([0x61].take maxBuffer) AutoDetectScript.Korean = "" :=
  ⟨((heuristic_order guessJP [0x61] AutoDetectScript.None (by decide) (by decide)
        (by decide)).2.1 (Or.inl rfl)).2.2.2 (by decide) (by decide) (by decide),
   (heuristic_order guessJP [0x61] AutoDetectScript.None (by decide) (by decide)
        (by decide)).2.2.1⟩

theorem cyrStep_low (s : CyrState) (prev p : Byte) (hp : ¬(0x7f : Byte) < p) :
    cyrStep s prev p = s := by
  unfold cyrStep
  rw [if_neg (fun h => hp (lt_trans (by decide) h)),
    if_neg (fun h => hp (lt_trans (by decide) h)),
    if_neg (fun h => hp (lt_trans (by decide) h.1))]

theorem cyrStep_buckets_le (s : CyrState) (prev p : Byte) :
    cyrBuckets (cyrStep s prev p) ≤ cyrBuckets s + 1 := by
  unfold cyrStep cyrBuckets
  split_ifs <;> simp <;> omega

theorem cyrLoop_buckets_le (l : List Byte) : ∀ (s : CyrState) (prev : Byte),
    cyrBuckets (cyrLoop s prev l) ≤ cyrBuckets s + highBitCount l := by
  induction l with
  | nil => intro s prev; simp [cyrLoop, highBitCount]
  | cons p rest ih =>
    intro s prev
    show cyrBuckets (cyrLoop (cyrStep s prev p) p rest) ≤ _
    have h1 := ih (cyrStep s prev p) p
    by_cases hp : (0x7f : Byte) < p
    · have h2 := cyrStep_buckets_le s prev p
      have h3 : highBitCount (p :: rest) = highBitCount rest + 1 := by
        simp [highBitCount, List.countP_cons, hp]
      omega
    · rw [cyrStep_low s prev p hp] at h1 ⊢
      have h3 : highBitCount (p :: rest) = highBitCount rest := by
        simp [highBitCount, List.countP_cons, hp]
      omega

theorem cyrRun_buckets_le (l : List Byte) : cyrBuckets (cyrRun l) ≤ highBitCount l := by
  cases l with
  | nil => simp [cyrRun, cyrInit, cyrBuckets]
  | cons p rest =>
    have h1 := cyrLoop_buckets_le rest cyrInit p
    have h2 : highBitCount rest ≤ highBitCount (p :: rest) := by
      simp [highBitCount, List.countP_cons]
    have h0 : cyrBuckets cyrInit = 0 := rfl
    show cyrBuckets (cyrLoop cyrInit p rest) ≤ _
    omega

theorem cyrDecide_lt8 (s : CyrState) (h : cyrBuckets s < 8) : cyrDecide s = "" := by
  unfold cyrDecide
  exact if_pos h

theorem highBitCount_take_le (l : List Byte) (n : Nat) :
    highBitCount (l.take n) ≤ highBitCount l :=
  (List.take_sublist n l).countP_le _

/-- The Cyrillic heuristic is inconclusive whenever fewer than 8 high-bit
bytes exist: the three range buckets only count (some) high-bit bytes. -/
theorem cyrillic_lt8_inconclusive (ptr : List Byte) (h : highBitCount ptr < 8) :
    automaticDetectionForCyrillic ptr = "" := by
  unfold automaticDetectionForCyrillic
  apply cyrDecide_lt8
  calc cyrBuckets (cyrRun (ptr.take (if ptr.length > 1000 then 1000 else ptr.length)))
      ≤ highBitCount (ptr.take (if ptr.length > 1000 then 1000 else ptr.length)) :=
        cyrRun_buckets_le _
    _ ≤ highBitCount ptr := highBitCount_take_le _ _
    _ < 8 := h

/-- C8 (amended): a sample with fewer than 8 high-bit bytes makes the
Cyrillic heuristic inconclusive; a classification reaching the Cyrillic
stage then never commits to a Cyrillic code page (its script is never
Cyrillic), and it falls through to the UTF-8-validity fallback whenever the
Japanese stage is also inconclusive. -/
theorem cyrillic_fallthrough :
    (∀ ptr : List Byte, highBitCount ptr < 8 → automaticDetectionForCyrillic ptr = "") ∧
    (∀ (guess : List Byte → JapaneseCode) (data : List Byte) (hint : AutoDetectScript),
      data.length ≠ 0 → checkBOM data = none → isBinary data = false →
      highBitCount (data.take maxBuffer) < 8 →
      (hint = AutoDetectScript.None ∨ runHeuristicsG guess (data.take maxBuffer) hint = "") →
      automaticDetectionForWesternEuropean (data.take maxBuffer) = "" →
      (EncodingDetectorG guess data hint).Script ≠ AutoDetectScript.Cyrillic ∧
      (automaticDetectionForJapaneseG guess (data.take maxBuffer) = "" →
        EncodingDetectorG guess data hint = utf8Fallback data)) := by
  refine ⟨cyrillic_lt8_inconclusive, ?_⟩
  intro guess data hint h0 hbom hbin hhb hhint hWE
  have hcyr : automaticDetectionForCyrillic (data.take maxBuffer) = "" :=
    cyrillic_lt8_inconclusive _ hhb
  have hg : ¬(hint ≠ AutoDetectScript.None ∧
      runHeuristicsG guess (data.take maxBuffer) hint ≠ "") := by
    rcases hhint with h | h
    · exact fun hc => hc.1 h
    · exact fun hc => hc.2 h
  rw [detector_stage guess data hint h0 hbom hbin, if_neg hg,
    if_neg (fun hne => hne hWE), if_neg (fun hne => hne hcyr)]
  constructor
  · split
    · exact fun h => by cases h
    · unfold utf8Fallback
      split <;> exact fun h => by cases h
  · intro hj
    rw [if_neg (fun hne => hne hj)]

/-- C8 witness: the empty buffer has no high-bit bytes, and on the ASCII
buffer `[0x61]` the classification reaching the Cyrillic stage has a
non-Cyrillic script. -/
theorem cyrillic_fallthrough_witness :
    automaticDetectionForCyrillic [0x40] = "" ∧
    (EncodingDetectorG guessJP [0x61] AutoDetectScript.None).Script ≠
      AutoDetectScript.Cyrillic :=
  ⟨cyrillic_fallthrough.1 [0x40] (by decide),
   (cyrillic_fallthrough.2 guessJP [0x61] AutoDetectScript.None (by decide) (by decide)
      (by decide) (by decide) (Or.inl rfl) (by decide)).1⟩

/-- C8 counterexample: the ISO-2022-JP opener `ESC $ B` has no high-bit
byte and reaches the Cyrillic stage (Western European and Cyrillic are both
inconclusive), yet the classification does not fall through to the
UTF-8-validity fallback: the Japanese stage commits to "jis7" first (under
the spec-modelled Japanese engine, which reports JIS on its canonical
escape sequence). -/
theorem jis_escape_commits_before_fallback :
    highBitCount jisEx = 0 ∧
    checkBOM jisEx = none ∧
    isBinary jisEx = false ∧
    automaticDetectionForWesternEuropean (jisEx.take maxBuffer) = "" ∧
    automaticDetectionForCyrillic (jisEx.take maxBuffer) = "" ∧
    EncodingDetector jisEx AutoDetectScript.None =
      ⟨"jis7", EncodingChoiceSource.AutoDetectedEncoding, AutoDetectScript.Japanese, false⟩ ∧
    EncodingDetector jisEx AutoDetectScript.None ≠ utf8Fallback jisEx := by
  refine ⟨rfl, rfl, rfl, rfl, rfl, rfl, ?_⟩
  decide

/-- The always-true cap guard of the Cyrillic loop: the byte window actually
scanned is exactly the first `min length 1000` bytes. -/
theorem take_limit_eq (l : List Byte) :
    l.take (if l.length > 1000 then 1000 else l.length) = l.take 1000 := by
  split
  · rfl
  · next h =>
    rw [List.take_length]
    exact (List.take_of_length_le (by omega)).symm

/-- The Cyrillic heuristic only reads the first 1000 bytes of its sample. -/
theorem cyrillic_take_1000 (ptr : List Byte) :
    automaticDetectionForCyrillic ptr = automaticDetectionForCyrillic (ptr.take 1000) := by
  simp only [automaticDetectionForCyrillic]
  rw [take_limit_eq, take_limit_eq, List.take_take,
    show min 1000 1000 = 1000 from rfl]

/-- C10 (amended): the Cyrillic heuristic's answer is a function of the
bytes at indices 0 through `min(len, 1000) - 1` of its sample — the
1000-byte limit guard always applies, so bytes at index 1000 or beyond
never affect the outcome, and two samples agreeing on indices 0..999 get
the same answer.  (The byte at index 0 is never counted in a bucket, but it
is read as `ptr[i-1]` by the two-byte sentence-marker tests at `i = 1`, so
agreement from index 1 on is not enough; see the counterexample.) -/
theorem cyrillic_first_1000_determines (s1 s2 : List Byte)
    (h : s1.take 1000 = s2.take 1000) :
    automaticDetectionForCyrillic s1 = automaticDetectionForCyrillic s2 := by
  rw [cyrillic_take_1000 s1, cyrillic_take_1000 s2, h]

/-- C10 witness: a 1001-byte buffer and a 1000-byte buffer with a different
byte at index 1000 agree on their first 1000 bytes and receive the same
answer. -/
theorem cyrillic_first_1000_determines_witness :
    automaticDetectionForCyrillic (List.replicate 1001 (0x41 : Byte)) =
      automaticDetectionForCyrillic (List.replicate 1000 (0x41 : Byte) ++ [0xF2]) :=
  cyrillic_first_1000_determines _ _ (by
    rw [List.take_replicate,
      List.take_append_of_le_length (Nat.le_of_eq (List.length_replicate ..).symm),
      List.take_replicate, show min 1000 1001 = 1000 from by omega,
      show min 1000 1000 = 1000 from by omega])

/-- C10 counterexample: `idx0A` and `idx0B` agree on every index from 1 on,
yet receive different Cyrillic answers — the byte at index 0 is read by the
sentence-marker pair test at `i = 1` (`ptr[0] = 0xF1`, `ptr[1] = 0xF2`
increments `cp1251St`), and the `cp1251St > 1` bonus then flips the final
cp1251-versus-koi8 comparison. -/
theorem cyrillic_index0_matters :
    idx0A.drop 1 = idx0B.drop 1 ∧
    idx0A.length = idx0B.length ∧
    automaticDetectionForCyrillic idx0A = "cp1251" ∧
    automaticDetectionForCyrillic idx0B = "koi8-u" := by
  refine ⟨rfl, rfl, ?_, ?_⟩ <;> decide

/-- C6 (amended): when the hint path and all three automatic heuristics are
inconclusive, the classifier returns exactly the UTF-8-validity fallback:
the pre-set "us-ascii"/default stands iff the full buffer is not valid
UTF-8, and is overwritten by "UTF-8"/heuristic iff it is.  Consequently the
plain-ASCII buffer "hello world" — being valid UTF-8 — classifies as
"UTF-8" with source heuristic, never as the "us-ascii" default, whatever
the Japanese engine answers. -/
theorem fallback_overwrites_default :
    (∀ (guess : List Byte → JapaneseCode) (data : List Byte) (hint : AutoDetectScript),
      data.length ≠ 0 → checkBOM data = none → isBinary data = false →
      (hint = AutoDetectScript.None ∨ runHeuristicsG guess (data.take maxBuffer) hint = "") →
      automaticDetectionForWesternEuropean (data.take maxBuffer) = "" →
      automaticDetectionForCyrillic (data.take maxBuffer) = "" →
      automaticDetectionForJapaneseG guess (data.take maxBuffer) = "" →
      EncodingDetectorG guess data hint = utf8Fallback data) ∧
    (∀ guess : List Byte → JapaneseCode,
      (EncodingDetectorG guess helloWorld AutoDetectScript.None).Source =
        EncodingChoiceSource.AutoDetectedEncoding ∧
      (EncodingDetectorG guess helloWorld AutoDetectScript.None).Encoding ≠ "us-ascii") ∧
    EncodingDetector helloWorld AutoDetectScript.None =
      ⟨"UTF-8", EncodingChoiceSource.AutoDetectedEncoding, AutoDetectScript.None, false⟩ := by
  refine ⟨?_, ?_, rfl⟩
  · intro guess data hint h0 hbom hbin hhint hWE hCyr hJP
    have hg : ¬(hint ≠ AutoDetectScript.None ∧
        runHeuristicsG guess (data.take maxBuffer) hint ≠ "") := by
      rcases hhint with h | h
      · exact fun hc => hc.1 h
      · exact fun hc => hc.2 h
    rw [detector_stage guess data hint h0 hbom hbin, if_neg hg,
      if_neg (fun hne => hne hWE), if_neg (fun hne => hne hCyr),
      if_neg (fun hne => hne hJP)]
  · intro guess
    have hWE : automaticDetectionForWesternEuropean (helloWorld.take maxBuffer) = "" := by
      decide
    have hCyr : automaticDetectionForCyrillic (helloWorld.take maxBuffer) = "" := by
      decide
    rw [detector_stage guess helloWorld AutoDetectScript.None (by decide) (by decide)
        (by decide), if_neg (fun hc => hc.1 rfl), if_neg (fun hne => hne hWE),
      if_neg (fun hne => hne hCyr)]
    by_cases hj : automaticDetectionForJapaneseG guess (helloWorld.take maxBuffer) = ""
    · rw [if_neg (fun hne => hne hj),
        show utf8Fallback helloWorld =
          ⟨"UTF-8", EncodingChoiceSource.AutoDetectedEncoding,
            AutoDetectScript.None, false⟩ from by decide]
      exact ⟨rfl, by decide⟩
    · rw [if_pos hj]
      exact ⟨rfl, japanese_encoding_ne⟩

/-- C6 witness: with the modelled engine, "hello world" takes exactly the
fallback branch. -/
theorem fallback_overwrites_default_witness :
    EncodingDetectorG guessJP helloWorld AutoDetectScript.None = utf8Fallback helloWorld :=
  fallback_overwrites_default.1 guessJP helloWorld AutoDetectScript.None (by decide)
    (by decide) (by decide) (Or.inl rfl) (by decide) (by decide) (by decide)

/-- C6 counterexample: "hello world" does not classify as the "us-ascii"
default — the final validity check overwrites it (ASCII is valid UTF-8). -/
theorem hello_world_not_default :
    ¬((EncodingDetector helloWorld AutoDetectScript.None).Encoding = "us-ascii" ∧
      (EncodingDetector helloWorld AutoDetectScript.None).Source =
        EncodingChoiceSource.DefaultEncoding) := by
  decide

theorem pairs_no_null : ∀ l : List Byte, isCyrUtf8Pairs l = true → (0 : Byte) ∉ l
  | [], _ => by simp
  | [d], h => by simp [isCyrUtf8Pairs] at h
  | d :: c :: rest, h => by
    simp only [isCyrUtf8Pairs, Bool.and_eq_true, Bool.or_eq_true, decide_eq_true_eq] at h
    obtain ⟨⟨⟨hd, hc1⟩, _⟩, hrest⟩ := h
    have ih := pairs_no_null rest hrest
    simp only [List.mem_cons, not_or]
    refine ⟨?_, ?_, fun hm => ih hm⟩
    · rintro rfl
      rcases hd with h | h <;> cases h
    · rintro rfl
      cases hc1

theorem checkBOM_none_head (b : Byte) (l : List Byte)
    (h1 : b ≠ 0xEF) (h2 : b ≠ 0xFE) (h3 : b ≠ 0xFF) : checkBOM (b :: l) = none := by
  unfold checkBOM
  rw [if_neg, if_neg, if_neg] <;>
    simp [startsWith, decide_eq_true_eq] <;>
    intro h <;> simp_all [eq_comm]

theorem take_maxBuffer_cons2 (a b : Byte) (l : List Byte) :
    (a :: b :: l).take maxBuffer = a :: b :: l.take 16382 := by
  show (a :: b :: l).take (16383 + 1) = _
  rw [List.take_succ_cons]
  show a :: (b :: l).take (16382 + 1) = _
  rw [List.take_succ_cons]

theorem we_utf8_pair (d c : Byte) (t : List Byte) (h1 : (0xc1 : Byte) < d)
    (h2 : d < 0xf0) (h3 : (0x7f : Byte) < c) (h4 : c < 0xc0) :
    automaticDetectionForWesternEuropean (d :: c :: t) = "UTF-8" := by
  unfold automaticDetectionForWesternEuropean
  rw [if_neg (by simp)]
  show weScan d 0 (c :: t) = _
  unfold weScan
  rw [if_pos (lt_trans (by decide) h1), if_pos ⟨h1, h2, h3, h4⟩]

/-- C7 (amended): a non-empty buffer of two-byte UTF-8 Cyrillic letters
(lead 0xD0/0xD1 plus continuation byte) with at least 8 (high-bit) bytes
classifies with no hint as "UTF-8" with source heuristic — but via the
Western European heuristic's lead/continuation test, which runs first and
fires on the very first pair, so the result's script field is
WesternEuropean and the Cyrillic heuristic is never consulted. -/
theorem cyrillic_utf8_pairs_via_western (guess : List Byte → JapaneseCode)
    (data : List Byte) (hpairs : isCyrUtf8Pairs data = true) (hlen : 8 ≤ data.length) :
    EncodingDetectorG guess data AutoDetectScript.None =
      ⟨"UTF-8", EncodingChoiceSource.AutoDetectedEncoding,
        AutoDetectScript.WesternEuropean, false⟩ := by
  match data, hpairs with
  | [], hp => cases hlen
  | [d], hp => simp [isCyrUtf8Pairs] at hp
  | d :: c :: rest, hp =>
    have hnn := pairs_no_null _ hp
    simp only [isCyrUtf8Pairs, Bool.and_eq_true, Bool.or_eq_true, decide_eq_true_eq] at hp
    obtain ⟨⟨⟨hd, hc1⟩, hc2⟩, _⟩ := hp
    have h0 : (d :: c :: rest).length ≠ 0 := by simp
    have hbom : checkBOM (d :: c :: rest) = none :=
      checkBOM_none_head d _ (by rcases hd with rfl | rfl <;> decide)
        (by rcases hd with rfl | rfl <;> decide) (by rcases hd with rfl | rfl <;> decide)
    have hbin : isBinary (d :: c :: rest) = false := by
      simp only [isBinary, List.any_eq_false, decide_eq_true_eq]
      intro x hx he
      exact hnn (he ▸ List.mem_of_mem_take hx)
    rw [detector_stage guess _ AutoDetectScript.None h0 hbom hbin,
      if_neg (fun hc => hc.1 rfl), take_maxBuffer_cons2,
      we_utf8_pair d c _ (by rcases hd with rfl | rfl <;> decide)
        (by rcases hd with rfl | rfl <;> decide)
        (lt_of_lt_of_le (by decide) hc1) (lt_of_le_of_lt hc2 (by decide)),
      if_pos (by decide)]

/-- C7 witness: the concrete buffer `D0 90` × 4. -/
theorem cyrillic_utf8_pairs_via_western_witness :
    EncodingDetectorG guessJP cyrPairsEx AutoDetectScript.None =
      ⟨"UTF-8", EncodingChoiceSource.AutoDetectedEncoding,
        AutoDetectScript.WesternEuropean, false⟩ :=
  cyrillic_utf8_pairs_via_western guessJP cyrPairsEx (by decide) (by decide)

/-- C7 counterexample: `D0 90` × 4 is valid UTF-8 made only of two-byte
Cyrillic sequences with 8 high-bit bytes, yet its no-hint classification
carries script WesternEuropean, not Cyrillic — and the Cyrillic heuristic
itself is inconclusive on it (the continuation bytes 0x90 fall in no range
bucket, so the ≥ 8 guard fails). -/
theorem cyrillic_utf8_pairs_counterexample :
    utf8Valid cyrPairsEx = true ∧
    isCyrUtf8Pairs cyrPairsEx = true ∧
    8 ≤ cyrPairsEx.length ∧
    highBitCount cyrPairsEx = 8 ∧
    (EncodingDetector cyrPairsEx AutoDetectScript.None).Script =
      AutoDetectScript.WesternEuropean ∧
    (EncodingDetector cyrPairsEx AutoDetectScript.None).Script ≠
      AutoDetectScript.Cyrillic ∧
    automaticDetectionForCyrillic cyrPairsEx = "" := by
  decide

/-- C1 witness: a lone UTF-8 BOM with a Cyrillic hint. -/
theorem bom_short_circuits_witness :
    EncodingDetectorG guessJP [0xEF, 0xBB, 0xBF] AutoDetectScript.Cyrillic =
      ⟨"UTF-8-BOM", EncodingChoiceSource.BOM, AutoDetectScript.None, false⟩ :=
  (bom_short_circuits guessJP AutoDetectScript.Cyrillic []).1

/-- C3 witness: the invariant instantiated at a null-byte buffer. -/
theorem result_invariant_witness :
    ((EncodingDetectorG guessJP [0x00] AutoDetectScript.None).IsBinary = true ∧
      (EncodingDetectorG guessJP [0x00] AutoDetectScript.None).Encoding = "binary") ∨
    ((EncodingDetectorG guessJP [0x00] AutoDetectScript.None).IsBinary = false ∧
      (EncodingDetectorG guessJP [0x00] AutoDetectScript.None).Encoding ≠ "") :=
  result_invariant guessJP [0x00] AutoDetectScript.None

/-- C4 witness: a null-free one-byte buffer is text. -/
theorem istext_null_heuristic_witness : IsText [0x41] = true :=
  (istext_null_heuristic.1 [0x41]).mpr (Or.inr (by decide))

/-- C9 witness: the empty buffer with the Unicode hint. -/
theorem empty_buffer_defined_witness :
    EncodingDetectorG guessJP [] AutoDetectScript.Unicode =
      ⟨"us-ascii", EncodingChoiceSource.DefaultEncoding, AutoDetectScript.None, false⟩ :=
  (empty_buffer_defined guessJP AutoDetectScript.Unicode).1

end Detector
